import Mathlib

/-!
Verification development for the zap2itXMLTV guide-assembly pipeline.

The definitions below are a shallow embedding of the Go sources: the
JSON payloads fetched from the provider are modelled by `JVal`/`JObj`,
Go type assertions (`v.(string)`, `v.(map[string]interface{})`,
`v.([]interface{})`) by the `asString`/`asObject`/`asArray` extractors
(a failed unchecked assertion is a Go panic, modelled by
`GoFail.goPanic`), and each pipeline function keeps the name of the Go
function it embeds.  File-system and network effects are made explicit:
a run is a function of the authentication outcome and of the sequence of
per-window fetch outcomes, and returns the list of output files written.
-/

namespace Z2X

/-- A decoded JSON value, as produced by Go's `encoding/json` into
`interface{}`: a string, an array (`[]interface{}`), an object
(`map[string]interface{}`), or any other value (number, bool, null) —
grouped as `other` since no modelled code path asserts those types. -/
inductive JVal where
  | str (s : String)
  | arr (xs : List JVal)
  | obj (fields : List (String × JVal))
  | other

/-- A decoded JSON object (`map[string]interface{}`). -/
abbrev JObj := List (String × JVal)

/-- Go map indexing `m[key]`: `none` models the nil interface returned
for an absent key. -/
def jLookup (m : JObj) (key : String) : Option JVal :=
  List.lookup key m

/-- Go type assertion `v.(string)` on a (possibly nil) interface value. -/
def asString : Option JVal → Option String
  | some (JVal.str s) => some s
  | _ => none

/-- Go type assertion `v.(map[string]interface{})`. -/
def asObject : Option JVal → Option JObj
  | some (JVal.obj fields) => some fields
  | _ => none

/-- Go type assertion `v.([]interface{})`. -/
def asArray : Option JVal → Option (List JVal)
  | some (JVal.arr xs) => some xs
  | _ => none

/-- How a pipeline step can abort: an ordinary Go `error` return, or a
runtime panic from a failed unchecked type assertion. -/
inductive GoFail where
  | err (msg : String)
  | goPanic
deriving DecidableEq, Repr

/-! Output entities (the XMLTV document structures of the source). -/

/-- The `Icon` struct: channel or programme icon. -/
structure Icon where
  src : String
deriving DecidableEq, Repr

/-- The `Title` struct: a programme title element. -/
structure Title where
  lang : String
  text : String
deriving DecidableEq, Repr

/-- The `SubTitle` struct: a programme subtitle element. -/
structure SubTitle where
  lang : String
  text : String
deriving DecidableEq, Repr

/-- The `Desc` struct: a programme description element. -/
structure Desc where
  lang : String
  text : String
deriving DecidableEq, Repr

/-- The `Category` struct: a programme category element. -/
structure Category where
  lang : String
  text : String
deriving DecidableEq, Repr

/-- The `Channel` struct: id attribute, ordered display names, optional icon. -/
structure Channel where
  id : String
  displayName : List String
  icon : Option Icon
deriving DecidableEq, Repr

/-- The `Programme` struct: start/stop/channel attributes and child elements. -/
structure Programme where
  start : String
  stop : String
  channel : String
  title : List Title
  subTitle : Option SubTitle
  desc : Option Desc
  categories : List Category
deriving DecidableEq, Repr

/-- The `TV` struct: the document root with its fixed attributes and the
accumulated channel and programme lists. -/
structure TV where
  sourceInfoURL : String
  sourceInfoName : String
  generatorInfoName : String
  generatorInfoURL : String
  channels : List Channel
  programmes : List Programme
deriving DecidableEq, Repr

/-! String helpers used by the normalizer.  Every pattern the source
passes to `strings.ReplaceAll` / `strings.Replace(_,_,_,1)` is a single
character, so the helpers take a `Char` pattern. -/

/-- Embeds `strings.ReplaceAll(s, old, new)` for a one-character `old`:
replace every occurrence. -/
def replaceAllChar (old : Char) (new : List Char) : List Char → List Char
  | [] => []
  | c :: rest =>
    (if c = old then new else [c]) ++ replaceAllChar old new rest

/-- Embeds `strings.Replace(s, old, new, 1)` for a one-character `old`:
replace the first occurrence only. -/
def replaceFirstChar (old : Char) (new : List Char) : List Char → List Char
  | [] => []
  | c :: rest =>
    if c = old then new ++ rest else c :: replaceFirstChar old new rest

/-- Embeds `formatDateTime` (part_000, identical to `BuildXMLDate` of main.go):
strip `-`, `T`, `:`, then replace the first `Z` with a literal
`" +0000"` suffix. -/
def formatDateTime (dt : String) : String :=
  ⟨replaceFirstChar 'Z' " +0000".toList
    (replaceAllChar ':' []
      (replaceAllChar 'T' []
        (replaceAllChar '-' [] dt.toList)))⟩

/-- Embeds `strings.Split(s, "?")[0]`: the prefix of `s` before the first `?`. -/
def splitBeforeQuery : List Char → List Char
  | [] => []
  | c :: rest => if c = '?' then [] else c :: splitBeforeQuery rest

/-- Embeds `strings.TrimLeft(s, "/")`: drop leading slashes. -/
def trimLeadingSlashes : List Char → List Char
  | [] => []
  | c :: rest => if c = '/' then trimLeadingSlashes rest else c :: rest

/-- Rendering of one interface value under `fmt.Sprintf`'s `%s` verb.
The pipeline only ever observes this on string values (and, on the
panicking paths whose result is discarded, on absent values, which Go
renders as `<nil>`); other kinds are abbreviated. -/
def goVerbS : Option JVal → String
  | some (JVal.str s) => s
  | some _ => "%!s"
  | none => "<nil>"

/-- Embeds `fmt.Sprintf("%s %s", a, b)`. -/
def goSprintfSS (a b : Option JVal) : String :=
  goVerbS a ++ " " ++ goVerbS b

/-! Channel extraction (`processChannels` of part_000). -/

/-- The body of `processChannels`' loop for one already-object entry:
build the `Channel` value.  The three field accesses
`channel["channelId"].(string)`, `channel["channelNo"].(string)` and
`channel["callSign"].(string)` are unchecked assertions, so an absent or
non-string field is a panic (`GoFail.goPanic`); the `thumbnail`
assertion is the checked `, ok` form and merely controls the icon. -/
def buildChannel (ch : JObj) : Except GoFail Channel :=
  match asString (jLookup ch "channelId") with
  | none => Except.error GoFail.goPanic
  | some id =>
    let display1 := goSprintfSS (jLookup ch "channelNo") (jLookup ch "callSign")
    match asString (jLookup ch "channelNo") with
    | none => Except.error GoFail.goPanic
    | some chNo =>
      match asString (jLookup ch "callSign") with
      | none => Except.error GoFail.goPanic
      | some cs =>
        let base : Channel := { id := id, displayName := [display1, chNo, cs], icon := none }
        match asString (jLookup ch "thumbnail") with
        | some thumbnail =>
          Except.ok { base with
            icon := some ⟨"http://" ++ ⟨trimLeadingSlashes (splitBeforeQuery thumbnail.toList)⟩⟩ }
        | none => Except.ok base

/-- The `for _, c := range channels` loop of `processChannels`: an entry
that is not an object is skipped (`continue` on the checked assertion);
otherwise the built channel is appended.  A panic inside `buildChannel`
aborts the whole loop. -/
def processChannelEntries : List JVal → Except GoFail (List Channel)
  | [] => Except.ok []
  | c :: rest =>
    match asObject (some c) with
    | none => processChannelEntries rest
    | some ch =>
      match buildChannel ch with
      | Except.error e => Except.error e
      | Except.ok channel =>
        match processChannelEntries rest with
        | Except.error e => Except.error e
        | Except.ok others => Except.ok (channel :: others)

/-- Embeds `processChannels`: requires the page's `channels` key to be an
array, else returns the `invalid channels data format` error. -/
def processChannels (page : JObj) : Except GoFail (List Channel) :=
  match asArray (jLookup page "channels") with
  | none => Except.error (GoFail.err "invalid channels data format")
  | some cs => processChannelEntries cs

/-! Programme extraction (`buildProgramme` / `processProgrammes`). -/

/-- Embeds `buildProgramme`: every field access is a checked assertion; a
missing/ill-typed `startTime`, `endTime`, `program` or `title` is an
ordinary error return (which the caller logs and skips). -/
def buildProgramme (lang : String) (event : JObj) (channelID : String) :
    Except GoFail Programme :=
  match asString (jLookup event "startTime") with
  | none => Except.error (GoFail.err "invalid start time")
  | some startTime =>
    match asString (jLookup event "endTime") with
    | none => Except.error (GoFail.err "invalid end time")
    | some endTime =>
      match asObject (jLookup event "program") with
      | none => Except.error (GoFail.err "invalid program data")
      | some program =>
        match asString (jLookup program "title") with
        | none => Except.error (GoFail.err "invalid title")
        | some title =>
          let subTitle : Option SubTitle :=
            match asString (jLookup program "episodeTitle") with
            | some episodeTitle =>
              if episodeTitle ≠ "" then some ⟨lang, episodeTitle⟩ else none
            | none => none
          let desc : String :=
            match asString (jLookup program "shortDesc") with
            | some shortDesc => if shortDesc ≠ "" then shortDesc else "Unavailable"
            | none => "Unavailable"
          Except.ok
            { start := formatDateTime startTime
              stop := formatDateTime endTime
              channel := channelID
              title := [⟨lang, title⟩]
              subTitle := subTitle
              desc := some ⟨lang, desc⟩
              categories := [] }

/-- The `for _, e := range events` loop of `processProgrammes`: a
non-object entry is skipped, a `buildProgramme` error is logged as a
warning and the event skipped, a success is appended. -/
def processEventEntries (lang channelID : String) : List JVal → List Programme
  | [] => []
  | e :: rest =>
    match asObject (some e) with
    | none => processEventEntries lang channelID rest
    | some event =>
      match buildProgramme lang event channelID with
      | Except.error _ => processEventEntries lang channelID rest
      | Except.ok prog => prog :: processEventEntries lang channelID rest

/-- The per-channel part of `processProgrammes`' outer loop: a
non-object channel entry, a missing `channelId` string or a missing
`events` array each `continue` to the next channel, contributing no
programmes. -/
def channelProgrammes (lang : String) (c : JVal) : List Programme :=
  match asObject (some c) with
  | none => []
  | some channel =>
    match asString (jLookup channel "channelId") with
    | none => []
    | some channelID =>
      match asArray (jLookup channel "events") with
      | none => []
      | some events => processEventEntries lang channelID events

/-- Embeds `processProgrammes`: requires the page's `channels` key to be an
array, else errors; otherwise accumulates each channel's programmes in
order. -/
def processProgrammes (lang : String) (page : JObj) : Except GoFail (List Programme) :=
  match asArray (jLookup page "channels") with
  | none => Except.error (GoFail.err "invalid channels data format")
  | some cs => Except.ok (cs.flatMap (channelProgrammes lang))

/-! The pipeline (`BuildGuide` of part_000, with `GetGuideTimes` of
main.go — part_000 inlines the identical arithmetic). -/

/-- Embeds `initializeGuide` of part_000 (`BuildRootEl` of main.go): the empty
document with its fixed root attributes. -/
def initGuide : TV :=
  { sourceInfoURL := "http://tvlistings.zap2it.com/"
    sourceInfoName := "zap2it"
    generatorInfoName := "zap2itXMLTV"
    generatorInfoURL := "https://github.com/spf13/zap2itxmltv"
    channels := []
    programmes := [] }

/-- Embeds `GetGuideTimes`: subtract one day from `now`, round down to the
nearest half hour (Go's `%` is the truncated remainder, `Int.tmod`),
and span 336 hours.  part_000's `BuildGuide` computes the same values
inline (`secondsInHalfHour = 1800`, `guideHours = 336`). -/
def GetGuideTimes (now : Int) : Int × Int :=
  let t := now - 60 * 60 * 24
  let halfHourOffset := Int.tmod t (60 * 30)
  let t := t - halfHourOffset
  (t, t + 60 * 60 * 336)

/-- The window loop header
`for currentTime := startTime; currentTime < endTime; currentTime += 3 * secondsInHour`:
the list of fetched window start times. -/
def strideTimes (t e : Int) : List Int :=
  if t < e then t :: strideTimes (t + 10800) e else []
termination_by (e - t).toNat
decreasing_by
  simp_wf
  omega

/-- The body of `BuildGuide`'s window loop on one fetched page: add the
page's channels when (and only when) the accumulated channel list is
still empty (`len(g.xmlGuide.Channels) == 0`), then append the page's
programmes; any failure aborts. -/
def processWindow (lang : String) (tv : TV) (page : JObj) : Except GoFail TV :=
  match (if tv.channels.isEmpty then
          match processChannels page with
          | Except.error e => Except.error e
          | Except.ok chs => Except.ok { tv with channels := tv.channels ++ chs }
        else Except.ok tv) with
  | Except.error e => Except.error e
  | Except.ok tv₁ =>
    match processProgrammes lang page with
    | Except.error e => Except.error e
    | Except.ok progs => Except.ok { tv₁ with programmes := tv₁.programmes ++ progs }

/-- Embeds `BuildGuide`'s window loop over the sequence of per-window fetch
outcomes (a `fetchGuideData` error aborts, as does any processing
error). -/
def processPages (lang : String) (tv : TV) : List (Except GoFail JObj) → Except GoFail TV
  | [] => Except.ok tv
  | p :: rest =>
    match p with
    | Except.error e => Except.error e
    | Except.ok page =>
      match processWindow lang tv page with
      | Except.error e => Except.error e
      | Except.ok tv₁ => processPages lang tv₁ rest

/-- Outcome of one `BuildGuide` run: the list of guide documents written
by `writeGuide` (the run writes at most one) and the returned result. -/
structure RunResult where
  written : List TV
  result : Except GoFail Unit
deriving Repr

/-- Embeds `BuildGuide` with the per-window fetch outcomes abstracted as a
list: an `authenticate` failure returns before anything else happens;
any loop failure returns before `writeGuide`; only a fully successful
loop reaches the single `writeGuide` call. -/
def runPipeline (lang : String) (auth : Except GoFail Unit)
    (pages : List (Except GoFail JObj)) : RunResult :=
  match auth with
  | Except.error e => { written := [], result := Except.error e }
  | Except.ok _ =>
    match processPages lang initGuide pages with
    | Except.error e => { written := [], result := Except.error e }
    | Except.ok tv => { written := [tv], result := Except.ok () }

/-- Embeds `BuildGuide` proper: the pages are the fetch outcomes of the strided
window start times produced by the `GetGuideTimes` arithmetic. -/
def BuildGuide (lang : String) (now : Int) (auth : Except GoFail Unit)
    (fetch : Int → Except GoFail JObj) : RunResult :=
  runPipeline lang auth
    ((strideTimes (GetGuideTimes now).1 (GetGuideTimes now).2).map fetch)

/-! Historical rotation (`loadConfig` retention default and
`cleanHistoricalFiles` of part_000). -/

/-- One directory entry as seen by `os.ReadDir` + `entry.Info()`:
name, directory flag, and modification time in Unix seconds. -/
structure DirEntry where
  name : String
  isDir : Bool
  modTime : Int
deriving DecidableEq, Repr

/-- The `HistoricalDays` field of `loadConfig`:
`cfg.Section("prefs").Key("historicalGuideDays").MustInt(defaultHistoryDays)`
with `defaultHistoryDays = 14` — the default applies when the key is
absent. -/
def loadConfigHistoricalDays : Option Int → Int
  | some n => n
  | none => 14

/-- The cutoff `time.Now().AddDate(0, 0, -g.config.HistoricalDays)`:
in Unix seconds, `now − histDays·86400`. -/
def cleanCutoff (now histDays : Int) : Int :=
  now - histDays * 86400

/-- Embeds `strings.HasSuffix(name, ".xmltv")`, at the character level. -/
def hasSuffixXmltv (name : String) : Bool :=
  List.isSuffixOf ".xmltv".toList name.toList

/-- Embeds `cleanHistoricalFiles`: the list of entries removed.  Directories
and names not ending in `.xmltv` are skipped; a file is removed exactly
when its modification time is strictly before the cutoff
(`info.ModTime().Before(cutoff)`). -/
def cleanHistoricalFiles (histDays now : Int) : List DirEntry → List DirEntry
  | [] => []
  | e :: rest =>
    if e.isDir || !(hasSuffixXmltv e.name) then
      cleanHistoricalFiles histDays now rest
    else if e.modTime < cleanCutoff now histDays then
      e :: cleanHistoricalFiles histDays now rest
    else
      cleanHistoricalFiles histDays now rest

/-! Helper lemmas. -/

/-- A digit character is none of the separator characters the formatter
rewrites. -/
lemma digit_eq_dash (c : Char) (h : c.isDigit = true) : (c = '-') = False := by
  simp only [eq_iff_iff, iff_false]
  rintro rfl
  exact absurd h (by decide)

/-- A digit character is not the `T` separator. -/
lemma digit_eq_t (c : Char) (h : c.isDigit = true) : (c = 'T') = False := by
  simp only [eq_iff_iff, iff_false]
  rintro rfl
  exact absurd h (by decide)

/-- A digit character is not the `:` separator. -/
lemma digit_eq_colon (c : Char) (h : c.isDigit = true) : (c = ':') = False := by
  simp only [eq_iff_iff, iff_false]
  rintro rfl
  exact absurd h (by decide)

/-- A digit character is not the `Z` zone marker. -/
lemma digit_eq_z (c : Char) (h : c.isDigit = true) : (c = 'Z') = False := by
  simp only [eq_iff_iff, iff_false]
  rintro rfl
  exact absurd h (by decide)

/-- Striding by three hours from `s` up to `s + 10800·k` yields exactly
the `k` window start times `s, s + 10800, …`. -/
lemma strideTimes_eq_range (s : Int) (k : Nat) :
    strideTimes s (s + 10800 * (k : Int))
      = (List.range k).map (fun i : Nat => s + 10800 * (i : Int)) := by
  induction k generalizing s with
  | zero =>
    rw [strideTimes]
    simp
  | succ k ih =>
    rw [strideTimes]
    have hlt : s < s + 10800 * ((k : Int) + 1) := by
      have : (0 : Int) < 10800 * ((k : Int) + 1) := by positivity
      omega
    have harg : s + 10800 * (((k : Nat) + 1 : Nat) : Int)
        = (s + 10800) + 10800 * (k : Int) := by
      push_cast
      ring
    rw [harg]
    have hlt' : s < (s + 10800) + 10800 * (k : Int) := by
      have : (0 : Int) ≤ 10800 * (k : Int) := by positivity
      omega
    rw [if_pos hlt', ih (s + 10800)]
    rw [List.range_succ_eq_map, List.map_cons, List.map_map]
    have hfun : ((fun i : Nat => s + 10800 * (i : Int)) ∘ Nat.succ)
        = fun i : Nat => (s + 10800) + 10800 * (i : Int) := by
      funext i
      simp only [Function.comp]
      push_cast
      ring
    rw [hfun]
    simp

/-! Claim C8. -/

/-- Claim C8: timestamp formatting is a pure function mapping every
valid ISO-8601 UTC timestamp of the shape `YYYY-MM-DDThh:mm:ssZ` (all
fourteen positions digits) to `YYYYMMDDhhmmss +0000`. -/
theorem c8_format_iso_shape
    (y1 y2 y3 y4 o1 o2 d1 d2 p1 p2 q1 q2 r1 r2 : Char)
    (k1 : y1.isDigit = true) (k2 : y2.isDigit = true)
    (k3 : y3.isDigit = true) (k4 : y4.isDigit = true)
    (k5 : o1.isDigit = true) (k6 : o2.isDigit = true)
    (k7 : d1.isDigit = true) (k8 : d2.isDigit = true)
    (k9 : p1.isDigit = true) (k10 : p2.isDigit = true)
    (k11 : q1.isDigit = true) (k12 : q2.isDigit = true)
    (k13 : r1.isDigit = true) (k14 : r2.isDigit = true) :
    formatDateTime ⟨[y1, y2, y3, y4, '-', o1, o2, '-', d1, d2, 'T',
                     p1, p2, ':', q1, q2, ':', r1, r2, 'Z']⟩
      = ⟨[y1, y2, y3, y4, o1, o2, d1, d2, p1, p2, q1, q2, r1, r2,
          ' ', '+', '0', '0', '0', '0']⟩ := by
  simp [formatDateTime, replaceAllChar, replaceFirstChar, String.toList,
    digit_eq_dash, digit_eq_t, digit_eq_colon, digit_eq_z,
    k1, k2, k3, k4, k5, k6, k7, k8, k9, k10, k11, k12, k13, k14]

/-- Witness for C8: the concrete instance from the specification. -/
theorem c8_witness :
    formatDateTime "2024-01-02T15:04:05Z" = "20240102150405 +0000" :=
  c8_format_iso_shape '2' '0' '2' '4' '0' '1' '0' '2' '1' '5' '0' '4' '0' '5'
    (by decide) (by decide) (by decide) (by decide) (by decide) (by decide)
    (by decide) (by decide) (by decide) (by decide) (by decide) (by decide)
    (by decide) (by decide)

/-! Claim C2. -/

/-- Claim C2 counterexample: at `now = 172800` the end of the guide span
is `1296000`, not `now + 14` days `= 1382400`; the window start times do
not reach 14 days after the current time. -/
theorem c2_counterexample :
    (GetGuideTimes 172800).2 ≠ 172800 + 60 * 60 * 24 * 14 := by
  decide

/-- Claim C2 (amended): the fetch windows stride in fixed 3-hour steps
from `now − 1 day` rounded down to the nearest half hour, and the span
ends 336 hours (14 days) after that rounded start — i.e. roughly 13
days after the current time, not 14. -/
theorem c2_amended_window_span (now : Int) :
    (GetGuideTimes now).1 = (now - 86400) - Int.tmod (now - 86400) 1800
    ∧ (GetGuideTimes now).2 = (GetGuideTimes now).1 + 336 * 3600
    ∧ strideTimes (GetGuideTimes now).1 (GetGuideTimes now).2
        = (List.range 112).map (fun i : Nat => (GetGuideTimes now).1 + 10800 * (i : Int)) := by
  refine ⟨rfl, rfl, ?_⟩
  have h : (GetGuideTimes now).2 = (GetGuideTimes now).1 + 10800 * ((112 : Nat) : Int) := by
    show (GetGuideTimes now).1 + 60 * 60 * 336 = _
    norm_num
  rw [h]
  exact strideTimes_eq_range (GetGuideTimes now).1 112

/-! Claim C1. -/

/-- Event processing distributes over concatenation of the events
array: each event is handled independently. -/
lemma processEventEntries_append (lang channelID : String) (xs ys : List JVal) :
    processEventEntries lang channelID (xs ++ ys)
      = processEventEntries lang channelID xs ++ processEventEntries lang channelID ys := by
  induction xs with
  | nil => simp [processEventEntries]
  | cons e rest ih =>
    rw [List.cons_append]
    cases e with
    | obj ev =>
      cases hb : buildProgramme lang ev channelID with
      | error e => simp [processEventEntries, asObject, hb, ih]
      | ok p => simp [processEventEntries, asObject, hb, ih]
    | str s => simp [processEventEntries, asObject, ih]
    | arr l => simp [processEventEntries, asObject, ih]
    | other => simp [processEventEntries, asObject, ih]

/-- An event whose `buildProgramme` call fails is skipped: it
contributes nothing and processing continues with the rest. -/
lemma processEventEntries_skip (lang channelID : String) (ev : JObj)
    (rest : List JVal) (e : GoFail)
    (h : buildProgramme lang ev channelID = Except.error e) :
    processEventEntries lang channelID (JVal.obj ev :: rest)
      = processEventEntries lang channelID rest := by
  simp [processEventEntries, asObject, h]

/-- An event record lacking a string `startTime`, a string `endTime`, an
object `program`, or a string `title` inside `program`, makes
`buildProgramme` return an error (which the caller merely logs). -/
lemma buildProgramme_error_of_missing (lang channelID : String) (ev : JObj)
    (hbad : asString (jLookup ev "startTime") = none
        ∨ asString (jLookup ev "endTime") = none
        ∨ asObject (jLookup ev "program") = none
        ∨ ∃ program, asObject (jLookup ev "program") = some program
            ∧ asString (jLookup program "title") = none) :
    ∃ e, buildProgramme lang ev channelID = Except.error e := by
  unfold buildProgramme
  rcases hbad with h | h | h | ⟨program, hp, ht⟩
  · rw [h]
    exact ⟨_, rfl⟩
  · cases hst : asString (jLookup ev "startTime") with
    | none => exact ⟨_, rfl⟩
    | some s =>
      rw [h]
      exact ⟨_, rfl⟩
  · cases hst : asString (jLookup ev "startTime") with
    | none => exact ⟨_, rfl⟩
    | some s =>
      cases het : asString (jLookup ev "endTime") with
      | none => exact ⟨_, rfl⟩
      | some t =>
        rw [h]
        exact ⟨_, rfl⟩
  · cases hst : asString (jLookup ev "startTime") with
    | none => exact ⟨_, rfl⟩
    | some s =>
      cases het : asString (jLookup ev "endTime") with
      | none => exact ⟨_, rfl⟩
      | some t =>
        rw [hp]
        exact ⟨GoFail.err "invalid title", by simp [ht]⟩

/-- Claim C1: an event lacking a `startTime` string, an `endTime`
string, a nested `program` object, or a `title` string inside `program`
is skipped by programme extraction — the surrounding events are
processed exactly as if the malformed event were absent — and, as long
as the page's `channels` key is an array, programme extraction succeeds
(the page and the run are not aborted). -/
theorem c1_malformed_event_skipped (lang channelID : String) (ev : JObj)
    (pre post : List JVal)
    (hbad : asString (jLookup ev "startTime") = none
        ∨ asString (jLookup ev "endTime") = none
        ∨ asObject (jLookup ev "program") = none
        ∨ ∃ program, asObject (jLookup ev "program") = some program
            ∧ asString (jLookup program "title") = none) :
    processEventEntries lang channelID (pre ++ JVal.obj ev :: post)
      = processEventEntries lang channelID pre ++ processEventEntries lang channelID post
    ∧ ∀ (page : JObj) (cs : List JVal),
        asArray (jLookup page "channels") = some cs →
        processProgrammes lang page = Except.ok (cs.flatMap (channelProgrammes lang)) := by
  constructor
  · obtain ⟨e, he⟩ := buildProgramme_error_of_missing lang channelID ev hbad
    rw [processEventEntries_append, processEventEntries_skip lang channelID ev post e he]
  · intro page cs h
    simp [processProgrammes, h]

/-- A concrete event record with no `startTime`, for the C1 witness. -/
def evNoStart : JObj :=
  [("endTime", JVal.str "2024-06-01T10:30:00Z")]

/-- A concrete valid event record, for the C1 witness. -/
def evNews : JVal :=
  JVal.obj [("startTime", JVal.str "2024-06-01T10:00:00Z"),
            ("endTime", JVal.str "2024-06-01T10:30:00Z"),
            ("program", JVal.obj [("title", JVal.str "News")])]

/-- A second concrete valid event record, for the C1 witness. -/
def evWeather : JVal :=
  JVal.obj [("startTime", JVal.str "2024-06-01T11:00:00Z"),
            ("endTime", JVal.str "2024-06-01T11:30:00Z"),
            ("program", JVal.obj [("title", JVal.str "Weather")])]

/-- Witness for C1: a concrete page whose middle event has no
`startTime`; the two valid neighbouring events survive. -/
theorem c1_witness :
    asString (jLookup evNoStart "startTime") = none
    ∧ processEventEntries "en" "5.1" ([evNews] ++ JVal.obj evNoStart :: [evWeather])
      = processEventEntries "en" "5.1" [evNews]
        ++ processEventEntries "en" "5.1" [evWeather] :=
  ⟨rfl, (c1_malformed_event_skipped "en" "5.1" evNoStart [evNews] [evWeather]
    (Or.inl rfl)).1⟩

/-! Claim C3. -/

/-- Claim C3 counterexample: a page whose single channel entry lacks
`channelId` makes channel extraction panic (abort), rather than
excluding only that entry. -/
theorem c3_counterexample :
    processChannels [("channels", JVal.arr [JVal.obj
      [("channelNo", JVal.str "5"), ("callSign", JVal.str "WABC")]])]
      = Except.error GoFail.goPanic := rfl

/-- Claim C3 (amended): a channel entry that is not a JSON object is
excluded without aborting, but an object entry lacking a string
`channelId`, `channelNo`, or `callSign` makes channel extraction panic,
aborting the page (and the run), instead of being skipped. -/
theorem c3_amended_missing_field_panics (c : JVal) (rest : List JVal) :
    (asObject (some c) = none →
      processChannelEntries (c :: rest) = processChannelEntries rest)
    ∧ ∀ ch, asObject (some c) = some ch →
        (asString (jLookup ch "channelId") = none
          ∨ asString (jLookup ch "channelNo") = none
          ∨ asString (jLookup ch "callSign") = none) →
        processChannelEntries (c :: rest) = Except.error GoFail.goPanic := by
  constructor
  · intro h
    simp [processChannelEntries, h]
  · intro ch hch hmiss
    have hb : buildChannel ch = Except.error GoFail.goPanic := by
      unfold buildChannel
      rcases hmiss with h | h | h
      · rw [h]
      · cases h1 : asString (jLookup ch "channelId") with
        | none => rfl
        | some id => rw [h]
      · cases h1 : asString (jLookup ch "channelId") with
        | none => rfl
        | some id =>
          cases h2 : asString (jLookup ch "channelNo") with
          | none => rfl
          | some chNo => rw [h]
    simp [processChannelEntries, hch, hb]

/-- Witness for C3 (amended): a non-object entry is skipped, while an
object entry missing `callSign` panics. -/
theorem c3_witness :
    asObject (some (JVal.str "junk")) = none
    ∧ processChannelEntries [JVal.str "junk"] = processChannelEntries []
    ∧ processChannelEntries
        [JVal.obj [("channelId", JVal.str "5.1"), ("channelNo", JVal.str "5")]]
      = Except.error GoFail.goPanic :=
  ⟨rfl, (c3_amended_missing_field_panics (JVal.str "junk") []).1 rfl,
    (c3_amended_missing_field_panics
      (JVal.obj [("channelId", JVal.str "5.1"), ("channelNo", JVal.str "5")]) []).2
      _ rfl (Or.inr (Or.inr rfl))⟩

/-! Claim C4. -/

/-- The raw page of end-to-end scenario A: one channel (`channelId`
`5.1`, `channelNo` `5`, `callSign` `WABC`, no thumbnail) with one event
(`startTime` `2024-06-01T10:00:00Z`, `endTime` `2024-06-01T10:30:00Z`,
`program.title` `News`, no `shortDesc`). -/
def pageA : JObj :=
  [("channels", JVal.arr [JVal.obj
    [("channelId", JVal.str "5.1"),
     ("channelNo", JVal.str "5"),
     ("callSign", JVal.str "WABC"),
     ("events", JVal.arr [JVal.obj
       [("startTime", JVal.str "2024-06-01T10:00:00Z"),
        ("endTime", JVal.str "2024-06-01T10:30:00Z"),
        ("program", JVal.obj [("title", JVal.str "News")])]])]])]

/-- The programme scenario A must produce. -/
def progNews (lang : String) : Programme :=
  { start := "20240601100000 +0000"
    stop := "20240601103000 +0000"
    channel := "5.1"
    title := [⟨lang, "News"⟩]
    subTitle := none
    desc := some ⟨lang, "Unavailable"⟩
    categories := [] }

/-- Claim C4: on the single-window scenario-A page, the run writes one
document containing exactly one channel with id `5.1`, the three
display names `5 WABC`, `5`, `WABC`, no icon, and one programme with
start `20240601100000 +0000`, stop `20240601103000 +0000`, title text
`News` and description text `Unavailable`. -/
theorem c4_scenario_a (lang : String) :
    runPipeline lang (Except.ok ()) [Except.ok pageA] =
      { written := [{ initGuide with
                      channels := [⟨"5.1", ["5 WABC", "5", "WABC"], none⟩],
                      programmes := [progNews lang] }],
        result := Except.ok () } := rfl

/-! Claim C5. -/

/-- Claim C5: an authentication failure makes the run fail with that
error and write nothing; whenever the run result is an error nothing is
written; whenever the run succeeds, every window was fetched and
normalized successfully and exactly the one resulting document is
written; and `BuildGuide` is this pipeline applied to the per-window
fetch outcomes over the strided guide times. -/
theorem c5_no_partial_output (lang : String) (auth : Except GoFail Unit)
    (pages : List (Except GoFail JObj)) :
    (∀ e, auth = Except.error e →
      runPipeline lang auth pages = ⟨[], Except.error e⟩)
    ∧ (∀ e, (runPipeline lang auth pages).result = Except.error e →
        (runPipeline lang auth pages).written = [])
    ∧ ((runPipeline lang auth pages).result = Except.ok () →
        ∃ tv, processPages lang initGuide pages = Except.ok tv
          ∧ (runPipeline lang auth pages).written = [tv])
    ∧ (∀ now fetch, BuildGuide lang now auth fetch
        = runPipeline lang auth
            ((strideTimes (GetGuideTimes now).1 (GetGuideTimes now).2).map fetch)) := by
  refine ⟨?_, ?_, ?_, fun now fetch => rfl⟩
  · intro e he
    rw [he]
    rfl
  · intro e
    cases auth with
    | error a => intro _; rfl
    | ok u =>
      cases h : processPages lang initGuide pages with
      | error a => intro _; simp [runPipeline, h]
      | ok tv => simp [runPipeline, h]
  · cases auth with
    | error a => intro hcontra; exact absurd hcontra (by simp [runPipeline])
    | ok u =>
      cases h : processPages lang initGuide pages with
      | error a => intro hcontra; exact absurd hcontra (by simp [runPipeline, h])
      | ok tv => intro _; exact ⟨tv, rfl, by simp [runPipeline, h]⟩

/-- Witness for C5: a failed authentication on a concrete run writes no
output file. -/
theorem c5_witness :
    runPipeline "en" (Except.error (GoFail.err "authentication failed")) [Except.ok pageA]
      = ⟨[], Except.error (GoFail.err "authentication failed")⟩
    ∧ (runPipeline "en" (Except.error (GoFail.err "authentication failed"))
        [Except.ok pageA]).written = [] :=
  ⟨(c5_no_partial_output "en" (Except.error (GoFail.err "authentication failed"))
      [Except.ok pageA]).1 (GoFail.err "authentication failed") rfl,
   (c5_no_partial_output "en" (Except.error (GoFail.err "authentication failed"))
      [Except.ok pageA]).2.1 (GoFail.err "authentication failed") rfl⟩

/-! Claim C6. -/

/-- First window of scenario B: channel `5.1` (callSign `WABC`) with
one event. -/
def pageB1 : JObj :=
  [("channels", JVal.arr [JVal.obj
    [("channelId", JVal.str "5.1"),
     ("channelNo", JVal.str "5"),
     ("callSign", JVal.str "WABC"),
     ("events", JVal.arr [JVal.obj
       [("startTime", JVal.str "2024-06-01T10:00:00Z"),
        ("endTime", JVal.str "2024-06-01T10:30:00Z"),
        ("program", JVal.obj [("title", JVal.str "News")])]])]])]

/-- Second window of scenario B: again channel id `5.1` but with a
different `callSign`, and the same event record (so the output shows
that programmes are not deduplicated while the second channel record
is discarded). -/
def pageB2 : JObj :=
  [("channels", JVal.arr [JVal.obj
    [("channelId", JVal.str "5.1"),
     ("channelNo", JVal.str "5"),
     ("callSign", JVal.str "WABC2"),
     ("events", JVal.arr [JVal.obj
       [("startTime", JVal.str "2024-06-01T10:00:00Z"),
        ("endTime", JVal.str "2024-06-01T10:30:00Z"),
        ("program", JVal.obj [("title", JVal.str "News")])]])]])]

/-- Claim C6: across two consecutive windows that both carry channel id
`5.1`, the final document keeps exactly the first window's channel
record (the second occurrence is discarded entirely — note the surviving
`WABC` display names), while the programmes of both windows appear,
without deduplication (the identical event yields two entries). -/
theorem c6_channel_once_programmes_twice (lang : String) :
    runPipeline lang (Except.ok ()) [Except.ok pageB1, Except.ok pageB2] =
      { written := [{ initGuide with
                      channels := [⟨"5.1", ["5 WABC", "5", "WABC"], none⟩],
                      programmes := [progNews lang, progNews lang] }],
        result := Except.ok () } := rfl

/-! Claim C7. -/

/-- Channel extraction over a page treats every entry independently:
processing a concatenation is the concatenation of the two processings
(so no entry is ever filtered against the ids seen before it). -/
lemma processChannelEntries_append (xs ys : List JVal) :
    processChannelEntries (xs ++ ys)
      = (match processChannelEntries xs with
         | Except.error e => Except.error e
         | Except.ok a =>
           match processChannelEntries ys with
           | Except.error e => Except.error e
           | Except.ok b => Except.ok (a ++ b)) := by
  induction xs with
  | nil =>
    cases hy : processChannelEntries ys with
    | error e => simp [processChannelEntries, hy]
    | ok b => simp [processChannelEntries, hy]
  | cons c rest ih =>
    rw [List.cons_append]
    cases c with
    | obj ch =>
      cases hb : buildChannel ch with
      | error e => simp [processChannelEntries, asObject, hb]
      | ok channel =>
        simp only [processChannelEntries, asObject, hb, ih]
        cases hx : processChannelEntries rest with
        | error e => rfl
        | ok a =>
          cases hy : processChannelEntries ys with
          | error e => rfl
          | ok b => rfl
    | str s => simp [processChannelEntries, asObject, ih]
    | arr l => simp [processChannelEntries, asObject, ih]
    | other => simp [processChannelEntries, asObject, ih]

/-- Claim C7 counterexample: a single valid page carrying two records
with the same `channelId` `5.1` yields two Channel entities with the
same id — the later duplicate is kept, not discarded. -/
theorem c7_counterexample :
    processChannels [("channels", JVal.arr
      [JVal.obj [("channelId", JVal.str "5.1"), ("channelNo", JVal.str "5"),
                 ("callSign", JVal.str "WABC")],
       JVal.obj [("channelId", JVal.str "5.1"), ("channelNo", JVal.str "5"),
                 ("callSign", JVal.str "WABC2")]])]
      = Except.ok [⟨"5.1", ["5 WABC", "5", "WABC"], none⟩,
                   ⟨"5.1", ["5 WABC2", "5", "WABC2"], none⟩] := rfl

/-- Claim C7 (amended): within one page channel extraction performs no
id-based deduplication — each entry is converted independently and
duplicates are all kept; id uniqueness in the final document arises only
from the window guard, which leaves the accumulated channel list
untouched once it is non-empty. -/
theorem c7_no_per_page_dedup (xs ys : List JVal) :
    processChannelEntries (xs ++ ys)
      = (match processChannelEntries xs with
         | Except.error e => Except.error e
         | Except.ok a =>
           match processChannelEntries ys with
           | Except.error e => Except.error e
           | Except.ok b => Except.ok (a ++ b))
    ∧ ∀ (lang : String) (tv : TV) (page : JObj) (tv₁ : TV),
        tv.channels.isEmpty = false →
        processWindow lang tv page = Except.ok tv₁ →
        tv₁.channels = tv.channels := by
  refine ⟨processChannelEntries_append xs ys, ?_⟩
  intro lang tv page tv₁ hne hw
  unfold processWindow at hw
  rw [hne] at hw
  simp only [Bool.false_eq_true, if_false] at hw
  cases hp : processProgrammes lang page with
  | error e => rw [hp] at hw; exact absurd hw (by simp)
  | ok ps =>
    rw [hp] at hw
    simp only [Except.ok.injEq] at hw
    rw [← hw]

/-- Witness for C7 (amended): a window processed while the channel list
already holds channel `5.1` leaves that channel list unchanged. -/
theorem c7_witness :
    ({ initGuide with
         channels := [⟨"5.1", ["5 WABC", "5", "WABC"], none⟩],
         programmes := [progNews "en"] } : TV).channels
      = ({ initGuide with
             channels := [⟨"5.1", ["5 WABC", "5", "WABC"], none⟩] } : TV).channels :=
  (c7_no_per_page_dedup [] []).2 "en"
    { initGuide with channels := [⟨"5.1", ["5 WABC", "5", "WABC"], none⟩] }
    pageB2
    { initGuide with
        channels := [⟨"5.1", ["5 WABC", "5", "WABC"], none⟩],
        programmes := [progNews "en"] }
    rfl rfl

/-! Claim C9. -/

/-- Claim C9: with `historicalGuideDays` absent from the settings the
retention window defaults to 14 days, and rotation removes exactly the
non-directory entries whose name ends in `.xmltv` and whose modification
time is strictly older than `now − 14` days — no younger file is
removed. -/
theorem c9_default_retention (now : Int) (entries : List DirEntry) :
    loadConfigHistoricalDays none = 14
    ∧ cleanHistoricalFiles (loadConfigHistoricalDays none) now entries
        = entries.filter (fun e => !e.isDir && hasSuffixXmltv e.name
            && decide (e.modTime < now - 14 * 86400))
    ∧ ∀ e, e ∈ cleanHistoricalFiles (loadConfigHistoricalDays none) now entries →
        e.modTime < now - 14 * 86400 := by
  have hfilter : cleanHistoricalFiles 14 now entries
      = entries.filter (fun e => !e.isDir && hasSuffixXmltv e.name
          && decide (e.modTime < now - 14 * 86400)) := by
    induction entries with
    | nil => rfl
    | cons e rest ih =>
      simp only [cleanHistoricalFiles, cleanCutoff, List.filter_cons]
      by_cases h1 : e.isDir = true
      · simp [h1, ih]
      · by_cases h2 : hasSuffixXmltv e.name = true
        · by_cases h3 : e.modTime < now - 14 * 86400
          · simp [h1, h2, h3, ih]
          · simp [h1, h2, h3, ih]
        · simp [h1, h2, ih]
  refine ⟨rfl, hfilter, ?_⟩
  intro e he
  simp only [loadConfigHistoricalDays] at he
  rw [hfilter] at he
  have hmem := List.of_mem_filter he
  simp only [Bool.and_eq_true, decide_eq_true_eq] at hmem
  exact hmem.2

/-- Witness for C9: with the default retention, a 2 000 000-second
clock removes the old `.xmltv` sibling and keeps the one modified just
now. -/
theorem c9_witness :
    cleanHistoricalFiles (loadConfigHistoricalDays none) 2000000
      [⟨"a.xmltv", false, 0⟩, ⟨"b.xmltv", false, 1999999⟩]
      = [⟨"a.xmltv", false, 0⟩]
    ∧ (⟨"a.xmltv", false, 0⟩ : DirEntry).modTime < 2000000 - 14 * 86400 :=
  ⟨(c9_default_retention 2000000
      [⟨"a.xmltv", false, 0⟩, ⟨"b.xmltv", false, 1999999⟩]).2.1.trans (by decide),
   (c9_default_retention 2000000
      [⟨"a.xmltv", false, 0⟩, ⟨"b.xmltv", false, 1999999⟩]).2.2
      ⟨"a.xmltv", false, 0⟩ (by decide)⟩

/-! Claim C10. -/

/-- A window whose page always fails to process stalls the whole loop:
wherever it sits in the page sequence, the loop ends in an error. -/
lemma processPages_stuck (lang : String) (page : JObj)
    (hw : ∀ tv, processWindow lang tv page
      = Except.error (GoFail.err "invalid channels data format")) :
    ∀ (prev : List (Except GoFail JObj)) (tv : TV) (rest : List (Except GoFail JObj)),
      ∃ e, processPages lang tv (prev ++ Except.ok page :: rest) = Except.error e := by
  intro prev
  induction prev with
  | nil =>
    intro tv rest
    exact ⟨GoFail.err "invalid channels data format", by simp [processPages, hw tv]⟩
  | cons p prev ih =>
    intro tv rest
    cases p with
    | error e => exact ⟨e, rfl⟩
    | ok pg =>
      cases hpw : processWindow lang tv pg with
      | error e => exact ⟨e, by simp [processPages, hpw]⟩
      | ok tv₁ =>
        obtain ⟨e, hp⟩ := ih tv₁ rest
        exact ⟨e, by simp [processPages, hpw, hp]⟩

/-- Claim C10: a page whose top-level `channels` key is absent or not an
array makes both channel extraction and programme extraction fail with
the page-level error, makes the window processing fail for any
accumulated state, and makes any run containing that page abort with an
error and an empty list of written files — never skipped like a single
malformed record. -/
theorem c10_page_level_defect (lang : String) (page : JObj)
    (h : asArray (jLookup page "channels") = none) :
    processChannels page = Except.error (GoFail.err "invalid channels data format")
    ∧ processProgrammes lang page = Except.error (GoFail.err "invalid channels data format")
    ∧ (∀ tv, processWindow lang tv page
        = Except.error (GoFail.err "invalid channels data format"))
    ∧ ∀ (auth : Except GoFail Unit) (prev rest : List (Except GoFail JObj)),
        ∃ e, runPipeline lang auth (prev ++ Except.ok page :: rest)
          = ⟨[], Except.error e⟩ := by
  have hch : processChannels page
      = Except.error (GoFail.err "invalid channels data format") := by
    simp [processChannels, h]
  have hpr : processProgrammes lang page
      = Except.error (GoFail.err "invalid channels data format") := by
    simp [processProgrammes, h]
  have hwin : ∀ tv, processWindow lang tv page
      = Except.error (GoFail.err "invalid channels data format") := by
    intro tv
    unfold processWindow
    cases hemp : tv.channels.isEmpty with
    | true => simp [hemp, hch]
    | false => simp [hemp, hpr]
  refine ⟨hch, hpr, hwin, ?_⟩
  intro auth prev rest
  cases auth with
  | error e => exact ⟨e, rfl⟩
  | ok u =>
    obtain ⟨e, hp⟩ := processPages_stuck lang page hwin prev initGuide rest
    exact ⟨e, by simp [runPipeline, hp]⟩

/-- Witness for C10: a page whose `channels` key holds a string (not an
array) poisons a concrete single-window run: nothing is written. -/
theorem c10_witness :
    asArray (jLookup ([("channels", JVal.str "nope")] : JObj) "channels") = none
    ∧ processChannels [("channels", JVal.str "nope")]
        = Except.error (GoFail.err "invalid channels data format")
    ∧ ∃ e, runPipeline "en" (Except.ok ())
        [Except.ok [("channels", JVal.str "nope")]] = ⟨[], Except.error e⟩ :=
  ⟨rfl, (c10_page_level_defect "en" [("channels", JVal.str "nope")] rfl).1,
    (c10_page_level_defect "en" [("channels", JVal.str "nope")] rfl).2.2.2
      (Except.ok ()) [] []⟩

end Z2X
